import Mathlib

/-!
Shallow embedding of the CompressBot-Optimized compression core
(`src/domain/entities/__init__.py`, `src/application/services/__init__.py`,
`src/infrastructure/compression/video_compression_service.py`).

Conventions:
* Python `int` is modelled as `Int`; Python `float` arithmetic over the
  simple literals the code uses (0.7, 0.5, 0.2, 0.3, 5.0) is modelled over
  `ℚ`; `int(x)` (truncation toward zero) is `pyInt`.
* Python `datetime` timestamps are not modelled: no claim depends on them.
* Dataclass `__post_init__` validation is modelled by an explicit
  `post_init` function returning `Except String α` (the `String` is the
  `ValueError` message the Python code raises).
* Python truthiness of an `Optional[str]` (`not x`) is `strFalsy`.
* The orchestrator's capability calls (repository, file storage,
  notification) are modelled by an `Env` record that says, per call,
  whether the call raises and what it returns; the run produces a trace of
  externally visible events, a final filesystem (a list of existing
  paths), and an outcome `Except String CompressionResult`, where `.error`
  means the Python coroutine raised.
-/

namespace CompressBot

/-- Enum `MediaType` from `src/domain/entities/__init__.py`. -/
inductive MediaType
  | audio | video | animation | document | image
deriving DecidableEq, Repr

/-- Enum `CompressionStatus` from `src/domain/entities/__init__.py`. -/
inductive CompressionStatus
  | pending | downloading | compressing | uploading | completed | failed | cancelled
deriving DecidableEq, Repr

/-- Enum `QualityLevel` from `src/domain/entities/__init__.py`. -/
inductive QualityLevel
  | low | medium | high | ultra | custom
deriving DecidableEq, Repr

/-- Python truthiness test of an `Optional[str]`: `not x` is true for
`None` and for the empty string. -/
def strFalsy : Option String → Bool
  | none => true
  | some s => s.isEmpty

/-- Python `int(q)` on a rational: truncation toward zero
(`Int.div` is T-division). All uses in this development have `q ≥ 0`. -/
def pyInt (q : ℚ) : Int :=
  Int.tdiv q.num (q.den : Int)

/-- Field record of the frozen dataclass `MediaFile`. -/
structure MediaFile where
  file_id : String
  filename : Option String
  file_size : Int
  media_type : MediaType
  mime_type : String
  duration : Option Int := none
  width : Option Int := none
  height : Option Int := none
  bitrate : Option Int := none
  user_id : Option Int := none
  chat_id : Option Int := none
  message_id : Option Int := none
deriving DecidableEq, Repr

/-- Validation `MediaFile.__post_init__`: raises `ValueError` when `file_id` is
falsy, `file_size <= 0`, or `mime_type` is falsy; otherwise the
constructed value is the record itself. -/
def MediaFile.post_init (f : MediaFile) : Except String MediaFile :=
  if f.file_id.isEmpty then .error "file_id is required"
  else if f.file_size ≤ 0 then .error "file_size must be positive"
  else if f.mime_type.isEmpty then .error "mime_type is required"
  else .ok f

/-- Field record of the frozen dataclass `CompressionOptions`
(`custom_parameters` is an opaque optional payload; no claim inspects
it, so it is modelled as an optional unit). -/
structure CompressionOptions where
  quality_level : QualityLevel
  strategy : String
  custom_parameters : Option Unit := none
deriving DecidableEq, Repr

/-- Validation `CompressionOptions.__post_init__`: raises when `strategy` is falsy. -/
def CompressionOptions.post_init (o : CompressionOptions) : Except String CompressionOptions :=
  if o.strategy.isEmpty then .error "strategy is required"
  else .ok o

/-- Field record of the mutable dataclass `CompressionJob`
(timestamps omitted, see module header). -/
structure CompressionJob where
  job_id : String
  media_file : MediaFile
  compression_options : CompressionOptions
  status : CompressionStatus
  progress : Int := 0
  error_message : Option String := none
  output_file_path : Option String := none
  original_size : Int := 0
  compressed_size : Int := 0
  compression_ratio : ℚ := 0
deriving DecidableEq, Repr

/-- Method `CompressionJob.start_compression`: unconditionally sets the status to
COMPRESSING (and `started_at`, not modelled). -/
def CompressionJob.start_compression (j : CompressionJob) : CompressionJob :=
  { j with status := .compressing }

/-- Method `CompressionJob.complete_compression`: unconditionally sets status
COMPLETED, output path, compressed size, the derived ratio
`(original_size - compressed_size) / original_size`, and progress 100.
Returns `none` when `original_size = 0`, modelling Python's
`ZeroDivisionError`. -/
def CompressionJob.complete_compression (j : CompressionJob)
    (output_path : String) (compressed_size : Int) : Option CompressionJob :=
  if j.original_size = 0 then none
  else some { j with
    status := .completed
    output_file_path := some output_path
    compressed_size := compressed_size
    compression_ratio := ((j.original_size - compressed_size : Int) : ℚ) / (j.original_size : ℚ)
    progress := 100 }

/-- Method `CompressionJob.fail_compression`: unconditionally sets status FAILED
and the error message. -/
def CompressionJob.fail_compression (j : CompressionJob) (error_message : String) : CompressionJob :=
  { j with status := .failed, error_message := some error_message }

/-- Method `CompressionJob.update_progress`: clamps the input to `[0, 100]`. -/
def CompressionJob.update_progress (j : CompressionJob) (progress : Int) : CompressionJob :=
  { j with progress := max 0 (min 100 progress) }

/-- Field record of the frozen dataclass `CompressionResult`
(`metadata` is an opaque optional payload, modelled as an optional list of
string pairs since `VideoCompressionService` fills it with strings). -/
structure CompressionResult where
  success : Bool
  job_id : String
  output_path : Option String := none
  original_size : Int := 0
  compressed_size : Int := 0
  compression_ratio : ℚ := 0
  processing_time : ℚ := 0
  error_message : Option String := none
  metadata : Option (List (String × String)) := none
deriving DecidableEq, Repr

/-- Validation `CompressionResult.__post_init__`: raises when `success` is true and
`output_path` is falsy, or `success` is false and `error_message` is
falsy. -/
def CompressionResult.post_init (r : CompressionResult) : Except String CompressionResult :=
  if r.success && strFalsy r.output_path then
    .error "output_path is required when success is True"
  else if !r.success && strFalsy r.error_message then
    .error "error_message is required when success is False"
  else .ok r

/-! ## Orchestrator model (`CompressionOrchestrator`, `src/application/services/__init__.py`) -/

deriving instance DecidableEq for Except

/-- Externally visible events of one `process_compression_request` run. -/
inductive Event
  | saved (st : CompressionStatus)
  | updated (st : CompressionStatus) (progress : Int)
  | downloaded (fileId : String) (dest : String) (ok : Bool)
  | compressInvoked
  | notifiedCompletion
  | notifiedError (msg : String)
  | notifiedProgress (percent : Int)
  | removed (path : String)
deriving DecidableEq, Repr

/-- Behaviour of the injected capabilities during one run: whether each
call raises, and what `download_file` returns. `updateRaisesFlags.getD n
false` tells whether the `n`-th `update_job` call raises. `fs0` is the set
of file paths existing before the call. -/
structure Env where
  fs0 : List String := []
  saveRaises : Bool := false
  updateRaisesFlags : List Bool := []
  downloadRaises : Bool := false
  downloadResult : Bool := true
  notifyCompletionRaises : Bool := false
  notifyErrorRaises : Bool := false
deriving DecidableEq, Repr

/-- Messages of the modelled capability exceptions. -/
def repoSaveError : String := "repository save_job raised"

def repoUpdateError : String := "repository update_job raised"

def downloadRaisedError : String := "file storage download_file raised"

def notifyRaisedError : String := "notification service raised"

def nameErrorTempPath : String := "NameError: temp_path is not defined"

/-- Mutable run state threaded through the orchestration. -/
structure RunState where
  fs : List String
  trace : List Event
  nUpdates : Nat
deriving DecidableEq, Repr

/-- Result of one `process_compression_request` call: the outcome
(`.error` means the coroutine raised), the event trace, the final
filesystem, and the orchestrator's job object as last mutated. -/
structure RunResult where
  outcome : Except String CompressionResult
  trace : List Event
  fs : List String
  finalJob : CompressionJob
deriving DecidableEq, Repr

/-- One `await self.job_repository.update_job(job)` call: either raises
(per `Env.updateRaisesFlags`) or records the persisted status/progress. -/
def updateCall (env : Env) (s : RunState) (j : CompressionJob) : RunState × Bool :=
  if env.updateRaisesFlags.getD s.nUpdates false then
    ({ s with nUpdates := s.nUpdates + 1 }, true)
  else
    ({ s with nUpdates := s.nUpdates + 1,
              trace := s.trace ++ [.updated j.status j.progress] }, false)

/-- Temp path of line 150:
`f"/tmp/{job.job_id}_{media_file.filename or 'file'}"` (Python `or`
replaces a falsy filename by `"file"`). -/
def temp_path_of (job_id : String) (mf : MediaFile) : String :=
  "/tmp/" ++ job_id ++ "_" ++
    (match mf.filename with
     | none => "file"
     | some s => if s.isEmpty then "file" else s)

/-- The `finally` block (lines 198–200): when `temp_path` was never
assigned (the `try` raised before line 150), evaluating it raises
`NameError`, which replaces any pending return value or exception;
otherwise `_cleanup_temp_files` removes the temp file when it exists. -/
def finallyCleanup (pending : Except String CompressionResult)
    (temp : Option String) (s : RunState) (j : CompressionJob) : RunResult :=
  match temp with
  | none =>
      { outcome := .error nameErrorTempPath, trace := s.trace, fs := s.fs, finalJob := j }
  | some p =>
      if p ∈ s.fs then
        { outcome := pending, trace := s.trace ++ [.removed p],
          fs := s.fs.erase p, finalJob := j }
      else
        { outcome := pending, trace := s.trace, fs := s.fs, finalJob := j }

/-- The `except Exception as e` block (lines 182–196):
`fail_compression(str(e))`, persist, send an error notification, and
return a failure `CompressionResult`; an exception raised inside this
block propagates into `finally`. -/
def exceptHandler (env : Env) (s : RunState) (j : CompressionJob)
    (e : String) (temp : Option String) : RunResult :=
  let j := j.fail_compression e
  let su := updateCall env s j
  if su.2 then finallyCleanup (.error repoUpdateError) temp su.1 j
  else if env.notifyErrorRaises then finallyCleanup (.error notifyRaisedError) temp su.1 j
  else
    let s := { su.1 with trace := su.1.trace ++ [.notifiedError e] }
    match CompressionResult.post_init
        { success := false, job_id := j.job_id, error_message := some e } with
    | .ok r => finallyCleanup (.ok r) temp s j
    | .error ve => finallyCleanup (.error ve) temp s j

/-- The job constructed at lines 132–138: PENDING, with `original_size`
copied from the media file. -/
def mkJob (job_id : String) (mf : MediaFile) (opts : CompressionOptions) : CompressionJob :=
  { job_id := job_id, media_file := mf, compression_options := opts,
    status := .pending, original_size := mf.file_size }

/-- Model of `CompressionOrchestrator.process_compression_request` (lines 126–200),
with the fresh `uuid4()` job id passed as a parameter. The body never
calls the injected compression service: after the download it builds the
hardcoded mock result of lines 160–168 (30% compression) and completes
the job directly from COMPRESSING, without an UPLOADING stage. -/
def process_compression_request (env : Env) (job_id : String)
    (mf : MediaFile) (opts : CompressionOptions) : RunResult :=
  let j := mkJob job_id mf opts
  if env.saveRaises then
    { outcome := .error repoSaveError, trace := [], fs := env.fs0, finalJob := j }
  else
  let s : RunState := { fs := env.fs0, trace := [.saved j.status], nUpdates := 0 }
  -- try: job.status = DOWNLOADING; update_job
  let j := { j with status := .downloading }
  let su := updateCall env s j
  if su.2 then exceptHandler env su.1 j repoUpdateError none
  else
  let s := su.1
  -- temp_path assigned (line 150), then download_file
  let temp := temp_path_of job_id mf
  if env.downloadRaises then exceptHandler env s j downloadRaisedError (some temp)
  else
  if !env.downloadResult then
    let s := { s with trace := s.trace ++ [.downloaded mf.file_id temp false] }
    exceptHandler env s j "Failed to download file" (some temp)
  else
  let s := { s with trace := s.trace ++ [.downloaded mf.file_id temp true],
                    fs := s.fs ++ [temp] }
  -- job.status = COMPRESSING; job.start_compression(); update_job
  let j := ({ j with status := .compressing }).start_compression
  let su := updateCall env s j
  if su.2 then exceptHandler env su.1 j repoUpdateError (some temp)
  else
  let s := su.1
  -- mock result (lines 159–168): int(file_size * 0.7), ratio 0.3
  let mockSize := pyInt ((mf.file_size : ℚ) * (7 / 10))
  match CompressionResult.post_init
      { success := true, job_id := job_id, output_path := some temp,
        original_size := mf.file_size, compressed_size := mockSize,
        compression_ratio := 3 / 10, processing_time := 5 } with
  | .error ve => exceptHandler env s j ve (some temp)
  | .ok result =>
    match j.complete_compression temp mockSize with
    | none => exceptHandler env s j "division by zero" (some temp)
    | some j =>
      let su := updateCall env s j
      if su.2 then exceptHandler env su.1 j repoUpdateError (some temp)
      else if env.notifyCompletionRaises then
        exceptHandler env su.1 j notifyRaisedError (some temp)
      else
        let s := { su.1 with trace := su.1.trace ++ [.notifiedCompletion] }
        finallyCleanup (.ok result) (some temp) s j

/-- Model of `CompressionOrchestrator._handle_progress` (lines 202–211): clamp the
job's progress and persist; the notification forwards the raw value. -/
def handle_progress (j : CompressionJob) (p : Int) :
    CompressionJob × List Event :=
  let j := j.update_progress p
  (j, [.updated j.status j.progress, .notifiedProgress p])

/-- The sequence of persisted progress values produced by successive
`_handle_progress` calls on one job. -/
def persistedProgresses (j : CompressionJob) : List Int → List Int
  | [] => []
  | p :: ps =>
      let j' := j.update_progress p
      j'.progress :: persistedProgresses j' ps

/-! ## Video compression backend
(`src/infrastructure/compression/video_compression_service.py`) -/

/-- Strategy-to-ratio mapping hardcoded in
`VideoCompressionService.compress` (lines 36–41). -/
def videoStrategyRatio (strategy : String) : ℚ :=
  if strategy = "size_reduction" then 1 / 2
  else if strategy = "quality_preservation" then 1 / 5
  else 3 / 10

/-- Python `f"/tmp/compressed_{media_file.filename}"`: interpolating the
`Optional[str]` renders `None` literally. -/
def compressedPathOf (mf : MediaFile) : String :=
  "/tmp/compressed_" ++ (match mf.filename with | none => "None" | some s => s)

/-- Model of `VideoCompressionService.compress` (lines 19–55), with the sleeps and
the progress-callback loop elided (they do not affect the returned
value): builds a success `CompressionResult` with the strategy-selected
ratio and `compressed_size = int(file_size * (1 - ratio))`. -/
def VideoCompressionService.compress (mf : MediaFile) (options : CompressionOptions) :
    Except String CompressionResult :=
  let compression_ratio := videoStrategyRatio options.strategy
  CompressionResult.post_init
    { success := true
      job_id := mf.file_id
      output_path := some (compressedPathOf mf)
      original_size := mf.file_size
      compressed_size := pyInt ((mf.file_size : ℚ) * (1 - compression_ratio))
      compression_ratio := compression_ratio
      processing_time := max 3 ((mf.file_size : ℚ) / (1024 * 1024))
      metadata := some [("strategy", options.strategy)] }

/-! ## Trace observations -/

/-- Whether an event is an invocation of the compression backend. -/
def Event.isCompressInvoked : Event → Bool
  | .compressInvoked => true
  | _ => false

/-- Whether an event is an error notification. -/
def Event.isErrorNotification : Event → Bool
  | .notifiedError _ => true
  | _ => false

/-- Whether an event is a completion notification. -/
def Event.isCompletionNotification : Event → Bool
  | .notifiedCompletion => true
  | _ => false

/-- Whether `process_compression_request` returned a `CompressionResult`
(`false` means the Python coroutine raised instead of returning). -/
def outcomeReturned : Except String CompressionResult → Bool
  | .ok _ => true
  | .error _ => false

/-- Whether an event persists the given status to the repository. -/
def Event.persistsStatus (st : CompressionStatus) : Event → Bool
  | .updated st' _ => st' = st
  | _ => false

/-! ## Concrete sample values -/

/-- A concrete valid media file (a 1,000,000-byte video). -/
def sampleVideo : MediaFile :=
  { file_id := "f123", filename := some "movie.mp4", file_size := 1000000,
    media_type := .video, mime_type := "video/mp4", user_id := some 7 }

/-- Concrete options selecting the size-reduction strategy. -/
def sampleOptions : CompressionOptions :=
  { quality_level := .medium, strategy := "size_reduction" }

/-- A concrete valid audio file without a filename. -/
def sampleAudio : MediaFile :=
  { file_id := "a9", filename := none, file_size := 2048,
    media_type := .audio, mime_type := "audio/mpeg", user_id := some 3 }

/-- A concrete job that has reached the terminal state COMPLETED. -/
def sampleCompletedJob : CompressionJob :=
  { job_id := "job-1", media_file := sampleVideo, compression_options := sampleOptions,
    status := .completed, progress := 100, original_size := 1000000,
    compressed_size := 700000, compression_ratio := 3 / 10,
    output_file_path := some "/tmp/out.mp4" }

/-- The all-nominal capability environment: nothing raises, download
succeeds, empty initial filesystem. -/
def nominalEnv : Env := {}

/-- Environment in which `download_file` returns `False` and every other
capability call behaves nominally. -/
def downloadFailEnv : Env := { downloadResult := false }

/-- Environment in which the first `update_job` call (persisting the
DOWNLOADING transition) raises and everything else is nominal. -/
def firstUpdateRaisesEnv : Env := { updateRaisesFlags := [true] }

/-- A concrete job in the middle of compression (active state). -/
def sampleCompressingJob : CompressionJob :=
  { job_id := "job-2", media_file := sampleVideo, compression_options := sampleOptions,
    status := .compressing, progress := 0, original_size := 1000000 }

/-! ## Helper lemmas -/

/-- A string starting with the literal `/tmp/` is never empty. -/
theorem temp_path_of_isEmpty (jid : String) (mf : MediaFile) :
    (temp_path_of jid mf).isEmpty = false := by
  rw [Bool.eq_false_iff]
  intro h
  have h2 := (String.isEmpty_iff _).1 h
  have h3 : (temp_path_of jid mf).data = [] := by rw [h2]
  simp [temp_path_of, String.data_append] at h3

/-- The backend's output path `/tmp/compressed_…` is never empty. -/
theorem compressedPathOf_isEmpty (mf : MediaFile) :
    (compressedPathOf mf).isEmpty = false := by
  rw [Bool.eq_false_iff]
  intro h
  have h2 := (String.isEmpty_iff _).1 h
  have h3 : (compressedPathOf mf).data = [] := by rw [h2]
  simp [compressedPathOf, String.data_append] at h3

/-- Truncation `int()` of an integer-valued rational is that integer. -/
theorem pyInt_intCast (n : Int) : pyInt ((n : Int) : ℚ) = n := by
  unfold pyInt
  rw [Rat.num_intCast, Rat.den_intCast]
  simp

/-- Evaluate `pyInt` through a rational identity. -/
theorem pyInt_eq_of_eq {q : ℚ} {n : Int} (h : q = (n : ℚ)) : pyInt q = n := by
  rw [h]; exact pyInt_intCast n

/-- A validated media file has a positive size. -/
theorem MediaFile.size_pos_of_valid {mf : MediaFile} (h : mf.post_init = .ok mf) :
    0 < mf.file_size := by
  unfold MediaFile.post_init at h
  split_ifs at h with h1 h2 h3
  omega

/-! ## Run-evaluation lemmas for pinned environments -/

/-- Full evaluation of a nominal run (all capabilities succeed) on a
positive-size media file: the orchestrator persists
PENDING/DOWNLOADING/COMPRESSING/COMPLETED (never UPLOADING), never emits
a `compressInvoked` event, returns the hardcoded mock success result with
ratio 0.3 and `compressed_size = int(0.7 * file_size)` whose output path
is the temp path, and deletes the temp file. -/
theorem run_nominalEnv_eq (jid : String) (mf : MediaFile) (opts : CompressionOptions)
    (hsz : 0 < mf.file_size) :
    process_compression_request nominalEnv jid mf opts =
      { outcome := .ok
          { success := true, job_id := jid,
            output_path := some (temp_path_of jid mf),
            original_size := mf.file_size,
            compressed_size := pyInt ((mf.file_size : ℚ) * (7 / 10)),
            compression_ratio := 3 / 10, processing_time := 5 },
        trace := [.saved .pending, .updated .downloading 0,
                  .downloaded mf.file_id (temp_path_of jid mf) true,
                  .updated .compressing 0, .updated .completed 100,
                  .notifiedCompletion, .removed (temp_path_of jid mf)],
        fs := [],
        finalJob :=
          { job_id := jid, media_file := mf, compression_options := opts,
            status := .completed, progress := 100,
            output_file_path := some (temp_path_of jid mf),
            original_size := mf.file_size,
            compressed_size := pyInt ((mf.file_size : ℚ) * (7 / 10)),
            compression_ratio :=
              ((mf.file_size - pyInt ((mf.file_size : ℚ) * (7 / 10)) : Int) : ℚ) /
                ((mf.file_size : Int) : ℚ) } } := by
  unfold process_compression_request nominalEnv mkJob updateCall exceptHandler
    finallyCleanup CompressionJob.start_compression CompressionJob.complete_compression
    CompressionResult.post_init
  simp [strFalsy, List.getD, hsz.ne', temp_path_of_isEmpty]

/-- Full evaluation of a run in which `download_file` returns `False` and
everything else is nominal: the job is failed with
`"Failed to download file"`, exactly the corresponding error notification
is sent, a failure result with the same message is returned, and no file
exists at the temp path. -/
theorem run_downloadFailEnv_eq (jid : String) (mf : MediaFile) (opts : CompressionOptions) :
    process_compression_request downloadFailEnv jid mf opts =
      { outcome := .ok
          { success := false, job_id := jid,
            error_message := some "Failed to download file" },
        trace := [.saved .pending, .updated .downloading 0,
                  .downloaded mf.file_id (temp_path_of jid mf) false,
                  .updated .failed 0,
                  .notifiedError "Failed to download file"],
        fs := [],
        finalJob :=
          { job_id := jid, media_file := mf, compression_options := opts,
            status := .failed, progress := 0,
            error_message := some "Failed to download file",
            original_size := mf.file_size } } := by
  have hfd : "Failed to download file".isEmpty = false := by decide
  unfold process_compression_request downloadFailEnv mkJob updateCall exceptHandler
    finallyCleanup CompressionJob.fail_compression CompressionResult.post_init
  simp [updateCall, finallyCleanup, strFalsy, List.getD, hfd]

/-! ## Filesystem-preservation lemmas (all capability behaviours) -/

/-- Persisting via `update_job` never touches the filesystem. -/
theorem updateCall_fst_fs (env : Env) (s : RunState) (j : CompressionJob) :
    (updateCall env s j).1.fs = s.fs := by
  unfold updateCall
  split <;> rfl

/-- The `finally` block never adds a file: a path absent before it stays
absent. -/
theorem finallyCleanup_not_mem {p : String} (pending : Except String CompressionResult)
    (t : Option String) (s : RunState) (j : CompressionJob) (h : p ∉ s.fs) :
    p ∉ (finallyCleanup pending t s j).fs := by
  cases t with
  | none => exact h
  | some q =>
    simp only [finallyCleanup]
    split
    · intro hmem
      exact h (List.mem_of_mem_erase hmem)
    · exact h

/-- The `finally` block removes the temp file when it is the single
occurrence appended to a filesystem not containing it. -/
theorem finallyCleanup_append_not_mem {p : String} {F : List String}
    (pending : Except String CompressionResult) (s : RunState) (j : CompressionJob)
    (hfs : s.fs = F ++ [p]) (hF : p ∉ F) :
    p ∉ (finallyCleanup pending (some p) s j).fs := by
  have hmem : p ∈ s.fs := by rw [hfs]; simp
  simp only [finallyCleanup]
  rw [if_pos hmem]
  show p ∉ s.fs.erase p
  rw [hfs, List.erase_append_right _ hF, List.erase_cons_head, List.append_nil]
  exact hF

/-- The `except` block (which ends in the `finally` block) never adds a
file: a path absent on entry is absent on exit. -/
theorem exceptHandler_not_mem {p : String} (env : Env) (s : RunState) (j : CompressionJob)
    (e : String) (t : Option String) (h : p ∉ s.fs) :
    p ∉ (exceptHandler env s j e t).fs := by
  simp only [exceptHandler]
  have h1 : p ∉ (updateCall env s (j.fail_compression e)).1.fs := by
    rw [updateCall_fst_fs]; exact h
  split
  · exact finallyCleanup_not_mem _ _ _ _ h1
  · split
    · exact finallyCleanup_not_mem _ _ _ _ h1
    · split
      · exact finallyCleanup_not_mem _ _ _ _ h1
      · exact finallyCleanup_not_mem _ _ _ _ h1

/-- The `except` block deletes the temp file when it exists as the single
appended occurrence. -/
theorem exceptHandler_append_not_mem {p : String} {F : List String} (env : Env)
    (s : RunState) (j : CompressionJob) (e : String)
    (hfs : s.fs = F ++ [p]) (hF : p ∉ F) :
    p ∉ (exceptHandler env s j e (some p)).fs := by
  simp only [exceptHandler]
  have h1 : (updateCall env s (j.fail_compression e)).1.fs = F ++ [p] := by
    rw [updateCall_fst_fs]; exact hfs
  split
  · exact finallyCleanup_append_not_mem _ _ _ h1 hF
  · split
    · exact finallyCleanup_append_not_mem _ _ _ h1 hF
    · split
      · exact finallyCleanup_append_not_mem _ _ _ h1 hF
      · exact finallyCleanup_append_not_mem _ _ _ h1 hF

/-- Master cleanup property over every capability behaviour (any
combination of raising repository/notification/storage calls, any
download outcome): a run never leaves a file at the temp path, provided
no file already sat there before the call. -/
theorem process_fs_not_mem (env : Env) (jid : String) (mf : MediaFile)
    (opts : CompressionOptions) (h : temp_path_of jid mf ∉ env.fs0) :
    temp_path_of jid mf ∉ (process_compression_request env jid mf opts).fs := by
  simp only [process_compression_request]
  split
  · exact h
  · split
    · exact exceptHandler_not_mem _ _ _ _ _ (by rw [updateCall_fst_fs]; exact h)
    · split
      · exact exceptHandler_not_mem _ _ _ _ _ (by rw [updateCall_fst_fs]; exact h)
      · split
        · exact exceptHandler_not_mem _ _ _ _ _ (by rw [updateCall_fst_fs]; exact h)
        · split
          · exact exceptHandler_append_not_mem _ _ _ _
              (by simp [updateCall_fst_fs]) h
          · split
            · exact exceptHandler_append_not_mem _ _ _ _
                (by simp [updateCall_fst_fs]) h
            · split
              · exact exceptHandler_append_not_mem _ _ _ _
                  (by simp [updateCall_fst_fs]) h
              · split
                · exact exceptHandler_append_not_mem _ _ _ _
                    (by simp [updateCall_fst_fs]) h
                · split
                  · exact exceptHandler_append_not_mem _ _ _ _
                      (by simp [updateCall_fst_fs]) h
                  · exact finallyCleanup_append_not_mem _ _ _
                      (by simp [updateCall_fst_fs]) h

/-! ## Claim theorems -/

/-- Claim C8: constructing a `MediaFile` succeeds exactly when `file_id`
and `mime_type` are non-empty and `file_size > 0`, and constructing a
`CompressionResult` succeeds exactly when a truthy `output_path`
accompanies `success = true` and a truthy `error_message` accompanies
`success = false`; any violation raises a `ValidationError`
(`ValueError`) and nothing else does. -/
theorem claim_C8_validation :
    (∀ f : MediaFile, f.post_init = .ok f ↔
      (f.file_id.isEmpty = false ∧ 0 < f.file_size ∧ f.mime_type.isEmpty = false)) ∧
    (∀ r : CompressionResult, r.post_init = .ok r ↔
      ((r.success && strFalsy r.output_path) = false ∧
       (!r.success && strFalsy r.error_message) = false)) := by
  constructor
  · intro f
    unfold MediaFile.post_init
    split_ifs with h1 h2 h3 <;> simp_all
  · intro r
    unfold CompressionResult.post_init
    split_ifs with h1 h2 <;> simp_all

/-- Claim C4: on a job built by the orchestrator from a validated media
file, `complete_compression` is well-defined (no division by zero, since
`original_size` is the validated positive `file_size`) and sets
`compression_ratio = (original_size - compressed_size) / original_size`
together with the COMPLETED status. -/
theorem claim_C4_ratio (jid : String) (mf : MediaFile) (opts : CompressionOptions)
    (path : String) (n : Int) (hv : mf.post_init = .ok mf) :
    0 < (mkJob jid mf opts).original_size ∧
    ∃ j', (mkJob jid mf opts).complete_compression path n = some j' ∧
      j'.compression_ratio =
        (((mkJob jid mf opts).original_size - n : Int) : ℚ) /
          ((mkJob jid mf opts).original_size : ℚ) ∧
      j'.status = .completed ∧ j'.compressed_size = n ∧ j'.progress = 100 := by
  have hpos : 0 < mf.file_size := MediaFile.size_pos_of_valid hv
  have horig : (mkJob jid mf opts).original_size = mf.file_size := rfl
  refine ⟨by omega, ?_⟩
  unfold CompressionJob.complete_compression
  rw [if_neg (by omega)]
  exact ⟨_, rfl, rfl, rfl, rfl, rfl⟩

/-- Witness for C4 at a concrete validated media file. -/
theorem claim_C4_ratio_witness :
    sampleVideo.post_init = .ok sampleVideo ∧
    0 < (mkJob "J" sampleVideo sampleOptions).original_size ∧
    ∃ j', (mkJob "J" sampleVideo sampleOptions).complete_compression "/tmp/out" 700000 = some j' ∧
      j'.compression_ratio =
        (((mkJob "J" sampleVideo sampleOptions).original_size - 700000 : Int) : ℚ) /
          ((mkJob "J" sampleVideo sampleOptions).original_size : ℚ) ∧
      j'.status = .completed ∧ j'.compressed_size = 700000 ∧ j'.progress = 100 :=
  ⟨by decide, claim_C4_ratio "J" sampleVideo sampleOptions "/tmp/out" 700000 (by decide)⟩

/-- Claim C3 fails on the code: `fail_compression` on a job already in
the terminal state COMPLETED is not rejected — it transitions the job out
of COMPLETED into FAILED. -/
theorem claim_C3_counterexample :
    sampleCompletedJob.status = .completed ∧
    (sampleCompletedJob.fail_compression "boom").status = .failed ∧
    (sampleCompletedJob.fail_compression "boom").status ≠ sampleCompletedJob.status := by
  refine ⟨rfl, rfl, ?_⟩
  decide

/-- Claim C3 as amended: `CompressionJob` has no terminal-state guard —
`start_compression` and `fail_compression` set the status
unconditionally, and `complete_compression` does so whenever
`original_size ≠ 0`, so a job in a terminal state (COMPLETED, FAILED or
CANCELLED) is transitioned out of it by any of these operations rather
than being rejected or asserted against. -/
theorem claim_C3_amended (j : CompressionJob) (m path : String) (n : Int)
    (_hterm : j.status = .completed ∨ j.status = .failed ∨ j.status = .cancelled) :
    (j.fail_compression m).status = .failed ∧
    (j.start_compression).status = .compressing ∧
    (j.original_size ≠ 0 →
      ∃ j', j.complete_compression path n = some j' ∧ j'.status = .completed) := by
  refine ⟨rfl, rfl, fun h0 => ?_⟩
  unfold CompressionJob.complete_compression
  rw [if_neg h0]
  exact ⟨_, rfl, rfl⟩

/-- Witness for the amended C3 at a concrete COMPLETED job. -/
theorem claim_C3_amended_witness :
    (sampleCompletedJob.status = .completed ∨ sampleCompletedJob.status = .failed ∨
      sampleCompletedJob.status = .cancelled) ∧
    (sampleCompletedJob.fail_compression "x").status = .failed ∧
    (sampleCompletedJob.start_compression).status = .compressing ∧
    (sampleCompletedJob.original_size ≠ 0 →
      ∃ j', sampleCompletedJob.complete_compression "/tmp/o" 1 = some j' ∧
        j'.status = .completed) :=
  ⟨Or.inl rfl, claim_C3_amended sampleCompletedJob "x" "/tmp/o" 1 (Or.inl rfl)⟩

/-- Claim C7 fails on the code: neither `update_progress` nor the
orchestrator's `_handle_progress` enforces monotonicity — on one active
job, the update sequence 50 then 10 persists 50 and then 10, so the
persisted progress decreases below the last externally observed value. -/
theorem claim_C7_counterexample :
    persistedProgresses sampleCompressingJob [50, 10] = [50, 10] ∧
    ((sampleCompressingJob.update_progress 50).update_progress 10).progress <
      (sampleCompressingJob.update_progress 50).progress := by
  refine ⟨?_, ?_⟩ <;> decide

/-- Claim C7 as amended: `update_progress` clamps every input to
`[0, 100]` (an in-range input is stored as given, so a smaller later
value does overwrite a larger one — no monotonicity is enforced), and
completion forces progress to 100. -/
theorem claim_C7_amended (j : CompressionJob) (p : Int) (path : String) (n : Int)
    (hin : 0 ≤ p) (hle : p ≤ 100) :
    (j.update_progress p).progress = p ∧
    (∀ q : Int, 0 ≤ (j.update_progress q).progress ∧ (j.update_progress q).progress ≤ 100) ∧
    (j.original_size ≠ 0 →
      ∃ j', j.complete_compression path n = some j' ∧ j'.progress = 100) := by
  refine ⟨?_, fun q => ⟨?_, ?_⟩, fun h0 => ?_⟩
  · unfold CompressionJob.update_progress
    simp only
    omega
  · exact le_max_left 0 _
  · unfold CompressionJob.update_progress
    simp only
    omega
  · unfold CompressionJob.complete_compression
    rw [if_neg h0]
    exact ⟨_, rfl, rfl⟩

/-- Witness for the amended C7 at a concrete job and in-range input. -/
theorem claim_C7_amended_witness :
    (0 : Int) ≤ 42 ∧ (42 : Int) ≤ 100 ∧
    ((sampleCompressingJob.update_progress 42).progress = 42 ∧
    (∀ q : Int, 0 ≤ (sampleCompressingJob.update_progress q).progress ∧
      (sampleCompressingJob.update_progress q).progress ≤ 100) ∧
    (sampleCompressingJob.original_size ≠ 0 →
      ∃ j', sampleCompressingJob.complete_compression "/tmp/o" 1 = some j' ∧
        j'.progress = 100)) :=
  ⟨by decide, by decide,
    claim_C7_amended sampleCompressingJob 42 "/tmp/o" 1 (by decide) (by decide)⟩

/-- Claim C9: for every media file and options, the video backend returns
a successful result whose ratio is 0.5 for `"size_reduction"`, 0.2 for
`"quality_preservation"`, and a silent default of 0.3 otherwise, with
`compressed_size = int(file_size * (1 - ratio))`; a 1,000,000-byte file
under `"size_reduction"` yields 500,000 bytes at ratio 0.5. -/
theorem claim_C9_video_ratio :
    (∀ (mf : MediaFile) (opts : CompressionOptions),
      ∃ r, VideoCompressionService.compress mf opts = .ok r ∧ r.success = true ∧
        r.compression_ratio =
          (if opts.strategy = "size_reduction" then 1 / 2
           else if opts.strategy = "quality_preservation" then 1 / 5
           else (3 / 10 : ℚ)) ∧
        r.compressed_size = pyInt ((mf.file_size : ℚ) * (1 - r.compression_ratio))) ∧
    (∃ r, VideoCompressionService.compress sampleVideo sampleOptions = .ok r ∧
      r.compressed_size = 500000 ∧ r.compression_ratio = 1 / 2 ∧ r.success = true) := by
  constructor
  · intro mf opts
    unfold VideoCompressionService.compress CompressionResult.post_init
    simp only [strFalsy, compressedPathOf_isEmpty, Bool.true_and, Bool.false_and,
      Bool.not_true, if_false, if_neg]
    exact ⟨_, rfl, rfl, rfl, rfl⟩
  · refine ⟨_, rfl, ?_, ?_, rfl⟩
    · show pyInt ((((1000000 : Int) : ℚ)) * (1 - videoStrategyRatio "size_reduction")) = 500000
      refine pyInt_eq_of_eq ?_
      norm_num [videoStrategyRatio]
    · show videoStrategyRatio "size_reduction" = 1 / 2
      norm_num [videoStrategyRatio]

/-- Claim C1 fails on the code: a concrete nominal run (valid video file,
size-reduction strategy) completes successfully and sends the completion
notification, yet no compression capability is ever invoked and the job
is never persisted in the UPLOADING state — the orchestrator skips
both. -/
theorem claim_C1_counterexample :
    (process_compression_request nominalEnv "J1" sampleVideo sampleOptions).finalJob.status
        = .completed ∧
    (process_compression_request nominalEnv "J1" sampleVideo
        sampleOptions).trace.countP Event.isCompletionNotification = 1 ∧
    (process_compression_request nominalEnv "J1" sampleVideo
        sampleOptions).trace.countP Event.isCompressInvoked = 0 ∧
    (process_compression_request nominalEnv "J1" sampleVideo
        sampleOptions).trace.countP (Event.persistsStatus .uploading) = 0 := by
  rw [run_nominalEnv_eq "J1" sampleVideo sampleOptions (by decide)]
  refine ⟨rfl, ?_, ?_, ?_⟩ <;>
    simp [List.countP_cons, Event.isCompletionNotification, Event.isCompressInvoked,
      Event.persistsStatus]

/-- Claim C1 as amended: on download success the orchestrator transitions
the job to COMPRESSING but never dispatches to any compression
capability; it builds the hardcoded mock success result (ratio 0.3,
`compressed_size = int(0.7 * file_size)`, output path = the temp path),
completes the job directly from COMPRESSING to COMPLETED — the UPLOADING
state is never entered — and delivers exactly one completion
notification. -/
theorem claim_C1_amended (jid : String) (mf : MediaFile) (opts : CompressionOptions)
    (hv : mf.post_init = .ok mf) :
    ∃ r, (process_compression_request nominalEnv jid mf opts).outcome = .ok r ∧
      r.success = true ∧ r.compression_ratio = 3 / 10 ∧
      r.compressed_size = pyInt ((mf.file_size : ℚ) * (7 / 10)) ∧
      r.output_path = some (temp_path_of jid mf) ∧
      (process_compression_request nominalEnv jid mf opts).finalJob.status = .completed ∧
      (process_compression_request nominalEnv jid mf
          opts).trace.countP Event.isCompressInvoked = 0 ∧
      (process_compression_request nominalEnv jid mf
          opts).trace.countP (Event.persistsStatus .uploading) = 0 ∧
      (process_compression_request nominalEnv jid mf
          opts).trace.countP Event.isCompletionNotification = 1 := by
  rw [run_nominalEnv_eq jid mf opts (MediaFile.size_pos_of_valid hv)]
  refine ⟨_, rfl, rfl, rfl, rfl, rfl, rfl, ?_, ?_, ?_⟩ <;>
    simp [List.countP_cons, Event.isCompletionNotification, Event.isCompressInvoked,
      Event.persistsStatus]

/-- Witness for the amended C1 at a concrete valid input. -/
theorem claim_C1_amended_witness :
    sampleVideo.post_init = .ok sampleVideo ∧
    ∃ r, (process_compression_request nominalEnv "W1" sampleVideo sampleOptions).outcome
          = .ok r ∧
      r.success = true ∧ r.compression_ratio = 3 / 10 ∧
      r.compressed_size = pyInt ((sampleVideo.file_size : ℚ) * (7 / 10)) ∧
      r.output_path = some (temp_path_of "W1" sampleVideo) ∧
      (process_compression_request nominalEnv "W1" sampleVideo
          sampleOptions).finalJob.status = .completed ∧
      (process_compression_request nominalEnv "W1" sampleVideo
          sampleOptions).trace.countP Event.isCompressInvoked = 0 ∧
      (process_compression_request nominalEnv "W1" sampleVideo
          sampleOptions).trace.countP (Event.persistsStatus .uploading) = 0 ∧
      (process_compression_request nominalEnv "W1" sampleVideo
          sampleOptions).trace.countP Event.isCompletionNotification = 1 :=
  ⟨by decide, claim_C1_amended "W1" sampleVideo sampleOptions (by decide)⟩

/-- Claim C6: when `download_file` returns `False` (all other
capabilities nominal), the job ends FAILED with error message
`"Failed to download file"`, exactly one error notification is sent, the
returned result is a failure carrying the same message, the compression
backend is never invoked, and no file exists at the temp path. -/
theorem claim_C6_download_failure (jid : String) (mf : MediaFile) (opts : CompressionOptions) :
    ∃ r, (process_compression_request downloadFailEnv jid mf opts).outcome = .ok r ∧
      r.success = false ∧ r.error_message = some "Failed to download file" ∧
      (process_compression_request downloadFailEnv jid mf opts).finalJob.status = .failed ∧
      (process_compression_request downloadFailEnv jid mf opts).finalJob.error_message
          = some "Failed to download file" ∧
      (process_compression_request downloadFailEnv jid mf
          opts).trace.countP Event.isErrorNotification = 1 ∧
      (process_compression_request downloadFailEnv jid mf
          opts).trace.countP Event.isCompressInvoked = 0 ∧
      temp_path_of jid mf ∉ (process_compression_request downloadFailEnv jid mf opts).fs := by
  rw [run_downloadFailEnv_eq jid mf opts]
  refine ⟨_, rfl, rfl, rfl, rfl, rfl, ?_, ?_, by simp⟩ <;>
    simp [List.countP_cons, Event.isErrorNotification, Event.isCompressInvoked]

/-- Claim C10: on a nominal successful run, the success result's
`output_path` is exactly the temporary download path, which the `finally`
block deletes — so after the call returns, the path named by the success
result no longer exists on disk. -/
theorem claim_C10_output_path_deleted (jid : String) (mf : MediaFile)
    (opts : CompressionOptions) (hv : mf.post_init = .ok mf) :
    ∃ r, (process_compression_request nominalEnv jid mf opts).outcome = .ok r ∧
      r.success = true ∧
      r.output_path = some (temp_path_of jid mf) ∧
      Event.removed (temp_path_of jid mf)
          ∈ (process_compression_request nominalEnv jid mf opts).trace ∧
      temp_path_of jid mf ∉ (process_compression_request nominalEnv jid mf opts).fs := by
  rw [run_nominalEnv_eq jid mf opts (MediaFile.size_pos_of_valid hv)]
  exact ⟨_, rfl, rfl, rfl, by simp, by simp⟩

/-- Witness for C10 at a concrete valid input. -/
theorem claim_C10_output_path_deleted_witness :
    sampleVideo.post_init = .ok sampleVideo ∧
    ∃ r, (process_compression_request nominalEnv "W10" sampleVideo sampleOptions).outcome
          = .ok r ∧
      r.success = true ∧
      r.output_path = some (temp_path_of "W10" sampleVideo) ∧
      Event.removed (temp_path_of "W10" sampleVideo)
          ∈ (process_compression_request nominalEnv "W10" sampleVideo sampleOptions).trace ∧
      temp_path_of "W10" sampleVideo
          ∉ (process_compression_request nominalEnv "W10" sampleVideo sampleOptions).fs :=
  ⟨by decide, claim_C10_output_path_deleted "W10" sampleVideo sampleOptions (by decide)⟩

/-- Claim C2 fails on the code: when the repository raises on the first
`update_job` call (an "unexpected error" exit path), `temp_path` is still
unbound, so the `finally` block raises `NameError` and the call does not
return a `CompressionResult` at all. -/
theorem claim_C2_counterexample :
    outcomeReturned (process_compression_request firstUpdateRaisesEnv "J2" sampleVideo
        sampleOptions).outcome = false ∧
    (process_compression_request firstUpdateRaisesEnv "J2" sampleVideo
        sampleOptions).outcome = .error nameErrorTempPath := by
  exact ⟨rfl, rfl⟩

/-- Claim C2 as amended: on every exit path — success, failure, or a
raised unexpected error, under any combination of capability behaviours —
no file remains at the temp path after the call (the temp file is deleted
whenever it was created); and whenever the capability calls do not raise,
the call does return a `CompressionResult`, for both download
outcomes. -/
theorem claim_C2_amended (env : Env) (jid : String) (mf : MediaFile)
    (opts : CompressionOptions) (hv : mf.post_init = .ok mf)
    (hfresh : temp_path_of jid mf ∉ env.fs0) :
    temp_path_of jid mf ∉ (process_compression_request env jid mf opts).fs ∧
    (∃ r, (process_compression_request nominalEnv jid mf opts).outcome = .ok r) ∧
    (∃ r, (process_compression_request downloadFailEnv jid mf opts).outcome = .ok r) := by
  refine ⟨process_fs_not_mem env jid mf opts hfresh, ?_, ?_⟩
  · rw [run_nominalEnv_eq jid mf opts (MediaFile.size_pos_of_valid hv)]
    exact ⟨_, rfl⟩
  · rw [run_downloadFailEnv_eq jid mf opts]
    exact ⟨_, rfl⟩

/-- Witness for the amended C2: even in the environment whose first
repository update raises, the cleanup guarantee holds at a concrete
input. -/
theorem claim_C2_amended_witness :
    sampleVideo.post_init = .ok sampleVideo ∧
    temp_path_of "W2" sampleVideo ∉ firstUpdateRaisesEnv.fs0 ∧
    (temp_path_of "W2" sampleVideo
        ∉ (process_compression_request firstUpdateRaisesEnv "W2" sampleVideo sampleOptions).fs ∧
    (∃ r, (process_compression_request nominalEnv "W2" sampleVideo sampleOptions).outcome
        = .ok r) ∧
    (∃ r, (process_compression_request downloadFailEnv "W2" sampleVideo sampleOptions).outcome
        = .ok r)) :=
  ⟨by decide, by simp [firstUpdateRaisesEnv],
    claim_C2_amended firstUpdateRaisesEnv "W2" sampleVideo sampleOptions (by decide)
      (by simp [firstUpdateRaisesEnv])⟩

/-- Claim C5 is the code's intent but the code has a slip: when the
repository raises while persisting the DOWNLOADING transition (an
expected `RepositoryFailure`), the `except` block does run
`fail_compression` and sends the error notification, but the `finally`
block then evaluates the never-assigned `temp_path` and raises
`NameError`, so the call raises instead of returning the failure
`CompressionResult`. -/
theorem claim_C5_repo_raise_escapes :
    (process_compression_request firstUpdateRaisesEnv "J5" sampleAudio
        sampleOptions).outcome = .error nameErrorTempPath ∧
    outcomeReturned (process_compression_request firstUpdateRaisesEnv "J5" sampleAudio
        sampleOptions).outcome = false ∧
    (process_compression_request firstUpdateRaisesEnv "J5" sampleAudio
        sampleOptions).finalJob.status = .failed ∧
    (process_compression_request firstUpdateRaisesEnv "J5" sampleAudio
        sampleOptions).finalJob.error_message = some repoUpdateError ∧
    (process_compression_request firstUpdateRaisesEnv "J5" sampleAudio
        sampleOptions).trace.countP Event.isErrorNotification = 1 := by
  exact ⟨rfl, rfl, rfl, rfl, rfl⟩

end CompressBot
